import Mathlib

/-
Shallow embedding of the geo-llama geoparsing pipeline.

The definitions below translate the Python source of the repository
(geo_llama/model.py, geo_llama/gazetteer.py, geo_llama/main.py) into Lean.
Conventions used throughout:

- Python floats are modelled as exact rationals.
- Python exceptions are modelled with Except; each inductive error type
  names the Python exception class that is raised on that path.
- External collaborators (the language-model oracle, the HTTP session)
  are modelled as injected functions, exactly where the Python code
  receives them as injected objects or issues an HTTP request.
- Mutable attributes of an object become fields of a state structure
  that is threaded through the functions.
-/

/-! ## Python container and string primitives -/

/-- Python list.insert: clamps an out-of-range index to an append. -/
def pyInsert {α : Type} (xs : List α) (i : Nat) (a : α) : List α :=
  xs.take i ++ a :: xs.drop i

/-- Python dict.get on an association list (first binding wins, as a dict has unique keys). -/
def pyGet {V : Type} (d : List (String × V)) (k : String) : Option V :=
  (d.find? (fun p => p.1 == k)).map (fun p => p.2)

/-- Python dict.update with a single key: replace the binding if present, else append it. -/
def dictUpdate {V : Type} (d : List (String × V)) (k : String) (v : V) : List (String × V) :=
  if d.any (fun p => p.1 == k) then d.map (fun p => if p.1 == k then (k, v) else p)
  else d ++ [(k, v)]

/-- Python str.capitalize: first character upper-cased, the rest lower-cased (ASCII model). -/
def pyCapitalize (s : String) : String :=
  match s.toList with
  | [] => ""
  | c :: cs => String.mk (c.toUpper :: cs.map Char.toLower)

/-- list(set(...)): deduplication. CPython set order is unspecified; the model keeps the
first occurrence of each element. The code comments and tests treat the order of the
deduplicated list as insignificant. -/
def pySetList : List String → List String
  | [] => []
  | x :: xs => x :: (pySetList xs).filter (fun y => y ≠ x)

/-- Python substring membership, needle in haystack, as a Boolean on the character lists. -/
def pyIn (needle haystack : String) : Bool :=
  haystack.toList.tails.any (fun suf => needle.toList.isPrefixOf suf)

/-- Python str.lower on the character list (ASCII model, matching the
sources this repository compares). -/
def pyLower (s : String) : String :=
  String.mk (s.toList.map Char.toLower)

/-- Worker for str.split: scan left to right, break at each occurrence of
the separator (assumed non-empty), non-overlapping.  The accumulator holds
the current piece reversed; fuel bounds the recursion and callers pass more
than the length of the input. -/
def splitOnChars (sep : List Char) : Nat → List Char → List Char → List (List Char)
  | 0, acc, rest => [acc.reverse ++ rest]
  | _, acc, [] => [acc.reverse]
  | fuel + 1, acc, c :: cs =>
    if sep.isPrefixOf (c :: cs) then
      acc.reverse :: splitOnChars sep fuel [] ((c :: cs).drop sep.length)
    else splitOnChars sep fuel (c :: acc) cs

/-- Python str.split with a non-empty separator. -/
def pySplit (s sep : String) : List String :=
  (splitOnChars sep.toList (s.length + 1) [] s.toList).map (fun cs => String.mk cs)

/-! ## The tokenizer of RAGModel.extract_words (model.py lines 237-263)

The Python code applies re.findall with a verbose pattern matching either
a run of word characters optionally joined by hyphen, period or apostrophe,
or a signed decimal number.  The scanner below reproduces re.findall with
that pattern, including the word-boundary requirement at the start of the
word alternative, for the ASCII and Latin-1 alphabet the repository uses
(the \w class is modelled as ASCII alphanumerics, the underscore, and the
explicit accented range 00C0-017F of the pattern). -/

/-- A word character of the pattern. -/
def wordChar (c : Char) : Bool :=
  c.isAlphanum || c == '_' || (0xC0 ≤ c.toNat && c.toNat ≤ 0x17F)

/-- A joining character inside a word token: hyphen, period, or apostrophe. -/
def isJoin (c : Char) : Bool :=
  c == '-' || c == '.' || c == Char.ofNat 39

/-- Continuation of a word token: repeatedly consume a joiner followed by a
run of word characters. Returns the consumed characters and the rest. Fuel
bounds the recursion; callers pass at least the length of the input. -/
def consumeJoins : Nat → List Char → List Char × List Char
  | 0, cs => ([], cs)
  | _, [] => ([], [])
  | fuel + 1, j :: cs =>
    if isJoin j && (cs.head?.map wordChar).getD false then
      let run := cs.takeWhile wordChar
      let (more, rest) := consumeJoins fuel (cs.dropWhile wordChar)
      ((j :: run) ++ more, rest)
    else ([], j :: cs)

/-- One left-to-right scan of re.findall. The prev argument carries the
character immediately before the current position, for the word-boundary
test of the word alternative. -/
def scanTokens : Nat → Option Char → List Char → List (List Char)
  | 0, _, _ => []
  | _, _, [] => []
  | fuel + 1, prev, c :: cs =>
    if wordChar c && !((prev.map wordChar).getD false) then
      let run := cs.takeWhile wordChar
      let (more, rest) := consumeJoins fuel (cs.dropWhile wordChar)
      let tok := (c :: run) ++ more
      tok :: scanTokens fuel tok.getLast? rest
    else if c == '-' && (cs.head?.map Char.isDigit).getD false then
      let ds := cs.takeWhile Char.isDigit
      let rest1 := cs.dropWhile Char.isDigit
      match rest1 with
      | '.' :: r2 =>
        if (r2.head?.map Char.isDigit).getD false then
          let fs := r2.takeWhile Char.isDigit
          (('-' :: ds) ++ ('.' :: fs)) :: scanTokens fuel fs.getLast? (r2.dropWhile Char.isDigit)
        else ('-' :: ds) :: scanTokens fuel ds.getLast? rest1
      | _ => ('-' :: ds) :: scanTokens fuel ds.getLast? rest1
    else scanTokens fuel (some c) cs

namespace RAGModel

/-- Exceptions the repair path of RAGModel can raise. -/
inductive RagErr where
  | valueError
  | indexError
  deriving DecidableEq, Repr

/-- A Python value produced by ast.literal_eval in this pipeline: a boolean,
a number (int or float, modelled as an exact rational), or None. -/
inductive PyVal where
  | pbool (b : Bool)
  | pnum (q : ℚ)
  | pnone
  deriving DecidableEq, Repr

/-- The dictionary RAGModel.fix_json returns: the four expected fields.
name is stored as the joined string; the other three store whatever
Python value literal_eval produced (which is how a missing latitude can
end up as the boolean False). -/
structure RagRecord where
  name : String
  latitude : PyVal
  longitude : PyVal
  RAG_estimated : PyVal
  deriving DecidableEq, Repr

/-- RAGModel.extract_words (model.py lines 237-263). -/
def extract_words (json_str : String) : List String :=
  (scanTokens (json_str.length + 1) none json_str.toList).map (fun cs => String.mk cs)

/-- RAGModel.add_missing_keys (model.py lines 214-234): walk the expected keys
with a running index i; a key absent from the current word list gets the pair
key, False inserted at i and i+1, after which the code advances i by two inside
the branch and by two more after it. -/
def add_missing_keysAux : List String → List String → Nat → List String
  | ws, [], _ => ws
  | ws, k :: ks, i =>
    if k ∈ ws then add_missing_keysAux ws ks (i + 2)
    else add_missing_keysAux (pyInsert (pyInsert ws i k) (i + 1) ("False")) ks (i + 4)

/-- Entry point of add_missing_keys with the index initialised to 0. -/
def add_missing_keys (words expected_keys : List String) : List String :=
  add_missing_keysAux words expected_keys 0

/-- RAGModel.get_word (model.py lines 265-289): start_idx defaults to -1 and
stop_idx to None; a truthy start or stop word is located with list.index
(ValueError when absent); the slice words[start_idx+1:stop_idx] is joined
with single spaces. -/
def get_word (words : List String) (start_word stop_word : Option String) :
    Except RagErr String :=
  let startRes : Except RagErr Nat :=
    match start_word with
    | none => Except.ok 0
    | some w =>
      if w = "" then Except.ok 0
      else
        match words.findIdx? (fun x => x == w) with
        | some j => Except.ok (j + 1)
        | none => Except.error RagErr.valueError
  match startRes with
  | Except.error e => Except.error e
  | Except.ok start =>
    let stopRes : Except RagErr (Option Nat) :=
      match stop_word with
      | none => Except.ok none
      | some w =>
        if w = "" then Except.ok none
        else
          match words.findIdx? (fun x => x == w) with
          | some j => Except.ok (some j)
          | none => Except.error RagErr.valueError
    match stopRes with
    | Except.error e => Except.error e
    | Except.ok stopIdx =>
      let place_words :=
        match stopIdx with
        | none => words.drop start
        | some j => (words.take j).drop start
      Except.ok (String.intercalate (" ") place_words)

/-- Digits to a natural number. -/
def digitsToNat (cs : List Char) : Nat :=
  cs.foldl (fun n c => 10 * n + (c.toNat - 48)) 0

/-- Numeric literals accepted by ast.literal_eval in the shapes this tokenizer
can produce: an optional minus sign, a nonempty run of digits, optionally a
period followed by digits (a trailing period is a valid Python float literal).
Scientific notation and other literal forms never reach this code because the
tokenizer emits no such tokens for its inputs. -/
def parse_number (s : String) : Option ℚ :=
  let cs0 := s.toList
  let neg := cs0.head? = some '-'
  let cs := if neg then cs0.drop 1 else cs0
  let ip := cs.takeWhile Char.isDigit
  let rest := cs.dropWhile Char.isDigit
  if ip.isEmpty then none
  else
    let valOpt : Option ℚ :=
      match rest with
      | [] => some (mkRat (Int.ofNat (digitsToNat ip)) 1)
      | '.' :: fp =>
        if fp.isEmpty then some (mkRat (Int.ofNat (digitsToNat ip)) 1)
        else if fp.all Char.isDigit then
          some (mkRat (Int.ofNat (digitsToNat (ip ++ fp))) (10 ^ fp.length))
        else none
      | _ => none
    valOpt.map (fun v => if neg then -v else v)

/-- ast.literal_eval on the strings this pipeline feeds it: the boolean and
None literals, else a numeric literal; anything else raises (ValueError or
SyntaxError, collapsed to valueError here). -/
def literal_eval (s : String) : Except RagErr PyVal :=
  if s = "True" then Except.ok (PyVal.pbool true)
  else if s = "False" then Except.ok (PyVal.pbool false)
  else if s = "None" then Except.ok PyVal.pnone
  else
    match parse_number s with
    | some q => Except.ok (PyVal.pnum q)
    | none => Except.error RagErr.valueError

/-- The word list fix_json operates on (model.py lines 191-195): the extracted
words, with the expected keys inserted when any of them is absent. -/
def fix_words (json_str : String) : List String :=
  let words := extract_words json_str
  let expected_keys := [("name"), ("latitude"), ("longitude"), ("RAG_estimated")]
  if expected_keys.any (fun w => !(words.contains w)) then
    add_missing_keys words expected_keys
  else words

/-- RAGModel.fix_json (model.py lines 181-212). The three get_word calls run
first; the dictionary literal then evaluates literal_eval(latitude),
literal_eval(longitude), bools[0] (IndexError when no boolean token exists)
and literal_eval(bools[0].capitalize()) in that order. Errors propagate:
nothing in fix_json or in its caller catches them. -/
def fix_json (json_str : String) : Except RagErr RagRecord :=
  let words := fix_words json_str
  match get_word words (some ("name")) (some ("latitude")) with
  | Except.error e => Except.error e
  | Except.ok place_name =>
    match get_word words (some ("latitude")) (some ("longitude")) with
    | Except.error e => Except.error e
    | Except.ok latitude =>
      match get_word words (some ("longitude")) (some ("RAG_estimated")) with
      | Except.error e => Except.error e
      | Except.ok longitude =>
        let bools := words.filter (fun w => pyLower w == "true" || pyLower w == "false")
        match literal_eval latitude with
        | Except.error e => Except.error e
        | Except.ok latv =>
          match literal_eval longitude with
          | Except.error e => Except.error e
          | Except.ok lonv =>
            match bools with
            | [] => Except.error RagErr.indexError
            | b0 :: _ =>
              match literal_eval (pyCapitalize b0) with
              | Except.error e => Except.error e
              | Except.ok ragv =>
                Except.ok { name := place_name, latitude := latv,
                            longitude := lonv, RAG_estimated := ragv }

/-- The resolved coordinate pair validate_json reads from its json_dict
argument; float values modelled as rationals. -/
structure Coord where
  latitude : ℚ
  longitude : ℚ
  deriving DecidableEq, Repr

/-- One gazetteer match as validate_json reads it: float(m[lat]) and
float(m[lon]), modelled as the converted rational values. -/
structure MatchRec where
  lat : ℚ
  lon : ℚ
  deriving DecidableEq, Repr

/-- RAGModel.validate_json (model.py lines 291-312): an empty match list sets
RAG_estimated to False before any comparison; otherwise a flag starting False
is set to True by any match within 0.001 on both axes, and the final flag is
stored under RAG_estimated.  The function returns that flag.  The matches
argument is named ms because matches is reserved in Lean. -/
def validate_json (j : Coord) (ms : List MatchRec) : Bool :=
  if ms.length = 0 then false
  else
    ms.foldl
      (fun rag m =>
        if |m.lat - j.latitude| ≤ 1 / 1000 ∧ |m.lon - j.longitude| ≤ 1 / 1000 then true
        else rag)
      false

end RAGModel

namespace TopoModel

/-- Exceptions the toponym-list repair can raise: the [1] subscript when the
array marker is absent, and the NameError when the loop variable i is never
bound because the remainder after the marker is empty. -/
inductive TopoErr where
  | indexError
  | nameError
  deriving DecidableEq, Repr

/-- TopoModel.fix_json (model.py lines 362-382): take the part of the string
after the first array-opening marker (split on the marker, subscript 1); scan
the reversed remainder for the first alphanumeric character at reverse index
i and slice with [:-i] (which empties the string when i = 0, the case of a
remainder ending in an alphanumeric character); split on the quote-comma-
space-quote separator; deduplicate with set; drop empty strings.  Returns the
toponyms list of the resulting single-field dictionary. -/
def fix_json (json_str : String) : Except TopoErr (List String) :=
  let parts := pySplit json_str ("[\"")
  match parts.get? 1 with
  | none => Except.error TopoErr.indexError
  | some list_part =>
    let cs := list_part.toList
    if cs.length = 0 then Except.error TopoErr.nameError
    else
      let i :=
        match cs.reverse.findIdx? (fun c => c.isAlpha || c.isDigit) with
        | some j => j
        | none => cs.length - 1
      let stripped := if i = 0 then ("") else String.mk (cs.take (cs.length - i))
      let items := pySplit stripped ("\", \"")
      let unique_items := pySetList items
      Except.ok (unique_items.filter (fun t => t.length ≠ 0))

/-- TopoModel.validate_toponyms (model.py lines 384-397): keep, in input
order, the toponyms that occur in the text. -/
def validate_toponyms : List String → String → List String
  | [], _ => []
  | t :: ts, text =>
    if pyIn t text then t :: validate_toponyms ts text
    else validate_toponyms ts text

end TopoModel

namespace Gazetteer

/-- Exceptions the gazetteer client can raise, named after the Python
exception classes. -/
inductive GazErr where
  | valueError
  | attributeError
  | typeError
  | keyError
  deriving DecidableEq, Repr

/-- One record of a nominatim-style JSON array, with the string fields the
pipeline reads. -/
structure Candidate where
  name : String
  lat : String
  lon : String
  display_name : String
  deriving DecidableEq, Repr

/-- One record of a GeoNames response array.  The Python code reads each
field with m.get(key, the empty string); the model bakes that default in by
making every field a total string. -/
structure GeoRec where
  name : String
  adminName1 : String
  countryName : String
  lat : String
  lng : String
  deriving DecidableEq, Repr

/-- A parsed JSON body as this client consumes it: either an array of
candidate records (the nominatim shape) or a JSON object, with a flag for
whether it carries the geonames key.  The model covers non-empty objects
only, which is all the client ever stores or returns. -/
inductive PyJson where
  | jlist (cs : List Candidate)
  | gobj (hasGeonames : Bool) (rs : List GeoRec)
  deriving DecidableEq, Repr

/-- Outcome of one HTTP GET issued through the requests session: a transport
error (requests.RequestException), or a status code together with the body,
where none stands for a body that is not valid JSON. -/
inductive NetOutcome where
  | transportError
  | response (status : Nat) (body : Option PyJson)

/-- What a call to Gazetteer.query can evaluate to: the implicit Python None
of the final fall-through, or a JSON value (a list, or the geonames error
dictionary). -/
inductive PyRet where
  | pyNone
  | json (j : PyJson)
  deriving DecidableEq, Repr

/-- Python truthiness of a cached or returned JSON value: an empty list is
falsy; the objects this client handles are non-empty dictionaries, which are
truthy. -/
def truthy : PyJson → Bool
  | PyJson.jlist cs => !cs.isEmpty
  | PyJson.gobj _ _ => true

/-- Python truthiness of an optional string (None and the empty string are
falsy). -/
def optTruthy : Option String → Bool
  | none => false
  | some s => !s.isEmpty

/-- The state of one Gazetteer instance: its constructor arguments, the
attributes the constructor conditionally sets (base_url and username exist
only on the branch that assigns them; usernameSet records whether the
username attribute exists at all), and the cache dictionary. -/
structure State where
  gazetteer_source : String
  base_url : Option String
  usernameSet : Bool
  username : Option String
  cache : List (String × PyJson)
  deriving DecidableEq, Repr

/-- Gazetteer.__init__ (gazetteer.py lines 28-39).  The source comparison is
case-sensitive and exact; any other source (including the default value
nominatm, a typo in the source) leaves base_url and username unset.  The
cache starts empty. -/
def init (gazetteer_source : String) (geonames_username : Option String) : State :=
  { gazetteer_source := gazetteer_source
    base_url :=
      if gazetteer_source = "nominatim" then some ("https://nominatim.openstreetmap.org/")
      else if gazetteer_source = "geonames" then some ("http://api.geonames.org/")
      else none
    usernameSet := gazetteer_source == "geonames"
    username :=
      if gazetteer_source = "geonames" then geonames_username else none
    cache := [] }

/-- urllib.parse.quote with the default safe characters, for the ASCII
inputs this pipeline sends. -/
def hexDigit (n : Nat) : Char :=
  if n < 10 then Char.ofNat (48 + n) else Char.ofNat (55 + n)

/-- Percent-encode one ASCII character unless it is unreserved or the safe
slash. -/
def quoteChar (c : Char) : List Char :=
  if c.isAlphanum || c == '_' || c == '.' || c == '-' || c == '~' || c == '/' then [c]
  else ['%', hexDigit (c.toNat / 16), hexDigit (c.toNat % 16)]

/-- urllib.parse.quote on a string (ASCII model). -/
def pyQuote (s : String) : String :=
  String.mk ((s.toList.map quoteChar).flatten)

/-- The URL _nominatim_query builds (gazetteer.py lines 81-83). -/
def buildNominatimUrl (base q : String) : String :=
  base ++ "search?q=" ++ pyQuote q ++ "&format=json" ++ "&accept-language=en"

/-- The URL _geonames_query builds (gazetteer.py lines 107-111); a missing
username renders as the string None, as a Python f-string does. -/
def buildGeonamesUrl (base : String) (username : Option String) (q : String) : String :=
  base ++ "searchJSON?q=" ++ pyQuote q ++ "&username=" ++ username.getD ("None")
    ++ "&orderby=relevance" ++ "&maxRows=20"

/-- Gazetteer._nominatim_query (gazetteer.py lines 71-96).  Reading base_url
raises AttributeError when the constructor never set it.  The try block
catches requests.RequestException only; a body that is not JSON raises the
requests JSONDecodeError, which subclasses RequestException (requests 2.27
and later, the behaviour the test-suite of the repository expects), so both
paths return the empty list.  A non-success status is only printed: the
parsed body is still cached and returned.  The cache is updated under the
literal string query, not under the query text. -/
def nominatim_query (g : State) (net : String → NetOutcome) (query _user_agent : String) :
    Except GazErr (PyJson × State) :=
  match g.base_url with
  | none => Except.error GazErr.attributeError
  | some base =>
    match net (buildNominatimUrl base query) with
    | NetOutcome.transportError => Except.ok (PyJson.jlist [], g)
    | NetOutcome.response _ none => Except.ok (PyJson.jlist [], g)
    | NetOutcome.response _ (some j) =>
      Except.ok (j, { g with cache := dictUpdate g.cache ("query") j })

/-- Gazetteer.format_geonames_response (gazetteer.py lines 126-142): the
display name joins name, admin region and country with comma-space
unconditionally, empty or not. -/
def format_geonames_response (response : List GeoRec) : List Candidate :=
  response.map (fun m =>
    { name := m.name, lat := m.lat, lon := m.lng,
      display_name := String.intercalate (", ") [m.name, m.adminName1, m.countryName] })

/-- Gazetteer._geonames_query (gazetteer.py lines 98-124), as the one-
argument method the source defines (its body reads self.username, not an
argument).  The try block catches RequestException, so a transport error or
an unparseable body returns the dictionary mapping geonames to the empty
list, not a list.  A parsed body without the geonames key raises KeyError;
a parsed array raises TypeError on the string subscript.  On success the
formatted list is cached under the literal string query and returned. -/
def geonames_query (g : State) (net : String → NetOutcome) (query : String) :
    Except GazErr (PyJson × State) :=
  match g.base_url with
  | none => Except.error GazErr.attributeError
  | some base =>
    match net (buildGeonamesUrl base g.username query) with
    | NetOutcome.transportError => Except.ok (PyJson.gobj true [], g)
    | NetOutcome.response _ none => Except.ok (PyJson.gobj true [], g)
    | NetOutcome.response _ (some j) =>
      match j with
      | PyJson.gobj true rs =>
        let out := PyJson.jlist (format_geonames_response rs)
        Except.ok (out, { g with cache := dictUpdate g.cache ("query") out })
      | PyJson.gobj false _ => Except.error GazErr.keyError
      | PyJson.jlist _ => Except.error GazErr.typeError

/-- The backend dispatch of Gazetteer.query (gazetteer.py lines 60-69),
reached when the cache lookup was falsy.  The source comparison lower-cases
the configured source.  The nominatim branch raises ValueError on a falsy
user_agent and otherwise delegates to _nominatim_query.  The geonames branch
reads self.username (AttributeError when the attribute does not exist,
ValueError when it is falsy) and then evaluates
self._geonames_query(query, self.username): two positional arguments passed
to a one-parameter method, which raises TypeError before any request.  Any
other source falls off the end of the function and returns None.  The third
component records whether a network request was issued. -/
def queryBackend (g : State) (net : String → NetOutcome) (q : String)
    (user_agent : Option String) : Except GazErr (PyRet × State × Bool) :=
  if pyLower g.gazetteer_source = "nominatim" then
    if optTruthy user_agent = false then Except.error GazErr.valueError
    else
      match nominatim_query g net q (user_agent.getD ("")) with
      | Except.error e => Except.error e
      | Except.ok (r, g2) => Except.ok (PyRet.json r, g2, true)
  else if pyLower g.gazetteer_source = "geonames" then
    if g.usernameSet = false then Except.error GazErr.attributeError
    else if optTruthy g.username = false then Except.error GazErr.valueError
    else Except.error GazErr.typeError
  else Except.ok (PyRet.pyNone, g, false)

/-- Gazetteer.query (gazetteer.py lines 41-69): the cache is consulted first
under the query text, and a truthy hit is returned with no network call;
otherwise the backend dispatch runs. -/
def query (g : State) (net : String → NetOutcome) (q : String)
    (user_agent : Option String) : Except GazErr (PyRet × State × Bool) :=
  match pyGet g.cache q with
  | some v => if truthy v then Except.ok (PyRet.json v, g, false) else queryBackend g net q user_agent
  | none => queryBackend g net q user_agent

end Gazetteer

namespace GeoLlama

/-- Failure of one oracle (language model) call, the external collaborator
invoked by get_location through the RAG model. -/
inductive GeoErr where
  | oracleFailure
  deriving DecidableEq, Repr

/-- One entry of the list GeoLlama.geoparse returns (the pipeline output
schema): floats as rationals, absent coordinates as none. -/
structure ResolvedLocation where
  name : String
  latitude : Option ℚ
  longitude : Option ℚ
  RAG_estimated : Bool
  deriving DecidableEq, Repr

/-- The per-toponym loop of GeoLlama.geoparse (main.py lines 68-76): for each
toponym, fetch its matches and call get_location; each result is appended to
the output.  get_matches and get_location stand for the injected gazetteer
and RAG-model collaborators; an exception from get_location propagates, so
the loop stops at the first failing toponym and no list is returned. -/
def geoparse_loop {α : Type} (get_matches : String → α)
    (get_location : String → String → α → Except GeoErr ResolvedLocation)
    (text : String) : List String → Except GeoErr (List ResolvedLocation)
  | [] => Except.ok []
  | t :: ts =>
    match get_location t text (get_matches t) with
    | Except.error e => Except.error e
    | Except.ok loc =>
      match geoparse_loop get_matches get_location text ts with
      | Except.error e => Except.error e
      | Except.ok rest => Except.ok (loc :: rest)

/-- GeoLlama.geoparse (main.py lines 52-76): extract the toponyms with the
toponym model, then run the per-toponym loop.  The non-string input check is
subsumed by the Lean type of text.  No exception handling surrounds the
loop. -/
def geoparse {α : Type} (get_toponyms : String → Except GeoErr (List String))
    (get_matches : String → α)
    (get_location : String → String → α → Except GeoErr ResolvedLocation)
    (text : String) : Except GeoErr (List ResolvedLocation) :=
  match get_toponyms text with
  | Except.error e => Except.error e
  | Except.ok ts => geoparse_loop get_matches get_location text ts

end GeoLlama

/-! ## Concrete inputs used by the claim theorems -/

/-- A nominatim candidate for Paris, as the JSON fields arrive (strings). -/
def parisCand : Gazetteer.Candidate :=
  { name := "Paris", lat := "48.85", lon := "2.34", display_name := "Paris, France" }

/-- A network that answers every request with status 200 and a one-candidate
array. -/
def netParis : String → Gazetteer.NetOutcome :=
  fun _ => Gazetteer.NetOutcome.response 200 (some (Gazetteer.PyJson.jlist [parisCand]))

/-- A network whose response body is not valid JSON. -/
def netBadBody : String → Gazetteer.NetOutcome :=
  fun _ => Gazetteer.NetOutcome.response 200 none

/-- A network that answers with a server error status and a parseable body. -/
def netStatus500 : String → Gazetteer.NetOutcome :=
  fun _ => Gazetteer.NetOutcome.response 500 (some (Gazetteer.PyJson.jlist [parisCand]))

/-- A fresh nominatim client. -/
def c1_g0 : Gazetteer.State := Gazetteer.init ("nominatim") none

/-- The client state after one successful nominatim lookup: the response was
cached under the literal key query. -/
def c1_g1 : Gazetteer.State :=
  { c1_g0 with cache := [(("query"), Gazetteer.PyJson.jlist [parisCand])] }

/-- A geonames client with a username. -/
def c6_gGeo : Gazetteer.State := Gazetteer.init ("geonames") (some ("user"))

/-- A nominatim client constructed with the capitalised source Nominatim:
the exact comparison in the constructor leaves base_url unset, while the
lower-cased comparison in query still selects the nominatim branch. -/
def c9_gCap : Gazetteer.State := Gazetteer.init ("Nominatim") none

/-- The truncated list output of the spec example, with no space after the
commas and ending mid-token: the opening brace and closing quote and bracket
are missing. -/
def c2_claim_input : String := "[\"toponym1\",\"toponym2\",\"top"

/-- The truncated input of the test-suite of the repository: separators with
a space, and a closing bracket and brace after the truncated token. -/
def c2_test_input : String := "\x7b\"toponyms\":[\"toponym1\", \"toponym2\", \"top]\x7d"

/-- A well-bracketed list with a repeated toponym, from the test-suite of
the repository. -/
def c2_dup_input : String := "\x7b\"toponyms\":[\"toponym1\", \"toponym2\", \"toponym1\"]\x7d"

/-- A truncated RAG response whose latitude value is not a literal. -/
def c4_bad_latitude : String :=
  "\x7b\"name\":\"Berlin\", \"latitude\":abc, \"longitude\":13.4, \"RAG_estimated\":true"

/-- A second truncated RAG response with a non-literal latitude value, used
to exercise the general parse-failure theorem. -/
def c4_unknown_latitude : String :=
  "\x7b\"name\":\"Paris\", \"latitude\":unknown, \"longitude\":2.34, \"RAG_estimated\":true"

/-- A truncated RAG response in which the oracle omitted the latitude field
entirely. -/
def c10_missing_latitude : String :=
  "\x7b\"name\":\"Paris\", \"longitude\":2.34, \"RAG_estimated\":true"

/-- A truncated RAG response in which the oracle omitted the name field. -/
def c10_missing_name : String :=
  "\x7b\"latitude\":48.85, \"longitude\":2.34, \"RAG_estimated\":true"

/-- A toponym model stub returning two toponyms. -/
def c8_get_toponyms : String → Except GeoLlama.GeoErr (List String) :=
  fun _ => Except.ok ["Paris", "London"]

/-- A gazetteer stub; its candidate payload is irrelevant to the failure
path. -/
def c8_get_matches : String → Unit := fun _ => ()

/-- A disambiguation oracle whose call fails for the first toponym and
succeeds for the second. -/
def c8_get_location : String → String → Unit → Except GeoLlama.GeoErr GeoLlama.ResolvedLocation :=
  fun t _ _ =>
    if t = "Paris" then Except.error GeoLlama.GeoErr.oracleFailure
    else Except.ok { name := t, latitude := some 1, longitude := some 2, RAG_estimated := false }


/-! ## Helper lemmas -/

/-- A list is a sublist of itself with one element inserted at any index. -/
theorem sublist_pyInsert {α : Type} (xs : List α) (i : Nat) (a : α) :
    List.Sublist xs (pyInsert xs i a) := by
  conv_lhs => rw [← List.take_append_drop i xs]
  exact List.Sublist.append_left (List.Sublist.cons a (List.Sublist.refl _)) _

/-- Membership after a Python insert comes from the list or is the inserted
element. -/
theorem mem_pyInsert {α : Type} {w a : α} {xs : List α} {i : Nat}
    (h : w ∈ pyInsert xs i a) : w ∈ xs ∨ w = a := by
  unfold pyInsert at h
  rcases List.mem_append.1 h with h | h
  · exact Or.inl (List.take_subset i xs h)
  · rcases List.mem_cons.1 h with h | h
    · exact Or.inr h
    · exact Or.inl (List.drop_subset i xs h)

/-- The insertion loop of add_missing_keys only ever inserts, so the word
list it starts from stays a sublist of its result. -/
theorem sublist_add_missing_keysAux (ks : List String) :
    ∀ (ws : List String) (i : Nat),
      List.Sublist ws (RAGModel.add_missing_keysAux ws ks i) := by
  induction ks with
  | nil =>
    intro ws i
    exact List.Sublist.refl ws
  | cons k ks ih =>
    intro ws i
    simp only [RAGModel.add_missing_keysAux]
    by_cases h : k ∈ ws
    · rw [if_pos h]
      exact ih ws (i + 2)
    · rw [if_neg h]
      exact ((sublist_pyInsert ws i k).trans
        (sublist_pyInsert _ (i + 1) ("False"))).trans (ih _ (i + 4))

/-- Every word of the result of the insertion loop is an original word, an
expected key, or the default token False. -/
theorem mem_add_missing_keysAux (ks : List String) :
    ∀ (ws : List String) (i : Nat) (w : String),
      w ∈ RAGModel.add_missing_keysAux ws ks i → w ∈ ws ∨ w ∈ ks ∨ w = "False" := by
  induction ks with
  | nil =>
    intro ws i w h
    exact Or.inl h
  | cons k ks ih =>
    intro ws i w h
    simp only [RAGModel.add_missing_keysAux] at h
    by_cases hk : k ∈ ws
    · rw [if_pos hk] at h
      rcases ih ws (i + 2) w h with h1 | h1 | h1
      · exact Or.inl h1
      · exact Or.inr (Or.inl (List.mem_cons_of_mem k h1))
      · exact Or.inr (Or.inr h1)
    · rw [if_neg hk] at h
      rcases ih _ (i + 4) w h with h1 | h1 | h1
      · rcases mem_pyInsert h1 with h2 | h2
        · rcases mem_pyInsert h2 with h3 | h3
          · exact Or.inl h3
          · exact Or.inr (Or.inl (h3 ▸ List.mem_cons_self k ks))
        · exact Or.inr (Or.inr h2)
      · exact Or.inr (Or.inl (List.mem_cons_of_mem k h1))
      · exact Or.inr (Or.inr h1)

/-- The set-to-True-and-never-reset fold of validate_json is a Boolean any. -/
theorem foldl_or_eq_any {α : Type} (p : α → Prop) [DecidablePred p] (ms : List α) (b : Bool) :
    ms.foldl (fun rag m => if p m then true else rag) b
      = (b || ms.any (fun m => decide (p m))) := by
  induction ms generalizing b with
  | nil => simp
  | cons m ms ih =>
    rw [List.foldl_cons, ih, List.any_cons]
    by_cases h : p m
    · simp [h]
    · simp [h]

/-- The Python substring test answers true exactly on infixes of the text. -/
theorem pyIn_iff_infix (t text : String) :
    pyIn t text = true ↔ t.toList <:+: text.toList := by
  unfold pyIn
  rw [List.any_eq_true]
  constructor
  · rintro ⟨suf, hmem, hpre⟩
    rw [List.infix_iff_prefix_suffix]
    refine ⟨suf, ?_, (List.mem_tails _ _).1 hmem⟩
    rwa [ List.isPrefixOf_iff_prefix] at hpre
  · intro h
    rw [List.infix_iff_prefix_suffix] at h
    obtain ⟨u, hp, hs⟩ := h
    refine ⟨u, (List.mem_tails _ _).2 hs, ?_⟩
    rwa [ List.isPrefixOf_iff_prefix]

/-- The validator loop is the filter by the substring test. -/
theorem validate_toponyms_eq_filter (ts : List String) (text : String) :
    TopoModel.validate_toponyms ts text = ts.filter (fun t => pyIn t text) := by
  induction ts with
  | nil => rfl
  | cons t ts ih =>
    simp only [TopoModel.validate_toponyms, List.filter_cons]
    by_cases h : pyIn t text = true
    · simp [h, ih]
    · simp [h, ih]

/-- A failing get_location call for a toponym of the list makes the
geoparse loop end in an error: nothing catches the exception. -/
theorem geoparse_loop_error {α : Type} (gm : String → α)
    (gl : String → String → α → Except GeoLlama.GeoErr GeoLlama.ResolvedLocation)
    (text : String) (t : String) (e : GeoLlama.GeoErr)
    (h3 : gl t text (gm t) = Except.error e) :
    ∀ ts : List String, t ∈ ts →
      ∃ e2, GeoLlama.geoparse_loop gm gl text ts = Except.error e2 := by
  intro ts
  induction ts with
  | nil => intro h2; cases h2
  | cons u us ih =>
    intro h2
    rcases List.mem_cons.1 h2 with rfl | hmem
    · exact ⟨e, by simp [GeoLlama.geoparse_loop, h3]⟩
    · cases hu : gl u text (gm u) with
      | error e3 => exact ⟨e3, by simp [GeoLlama.geoparse_loop, hu]⟩
      | ok l =>
        obtain ⟨e2, hl⟩ := ih hmem
        exact ⟨e2, by simp [GeoLlama.geoparse_loop, hu, hl]⟩

/-! ## Claim theorems -/

/-- C1: the claim says two query calls for the same string trigger at most
one network call, with the cache populated under the exact query string.
The code instead caches every response under the literal key query
(gazetteer.py line 91): on a fresh nominatim client, both of two successive
query calls for Paris issue a network request (third tuple component true),
the cache holds no entry for Paris, and the response sits under the key
query. -/
theorem c1_cache_keyed_on_constant :
    Gazetteer.query c1_g0 netParis ("Paris") (some ("agent"))
      = Except.ok (Gazetteer.PyRet.json (Gazetteer.PyJson.jlist [parisCand]), c1_g1, true)
    ∧ Gazetteer.query c1_g1 netParis ("Paris") (some ("agent"))
      = Except.ok (Gazetteer.PyRet.json (Gazetteer.PyJson.jlist [parisCand]), c1_g1, true)
    ∧ pyGet c1_g1.cache ("Paris") = none
    ∧ pyGet c1_g1.cache ("query") = some (Gazetteer.PyJson.jlist [parisCand]) :=
  ⟨rfl, rfl, rfl, rfl⟩

/-- C2 counterexample: on the exact truncated input of the claim (no space
after the commas, ending in an alphanumeric character), the toponym-list
repair returns the empty list, not the three claimed toponyms: the trailing
strip slices with [:-0] and empties the remainder. -/
theorem c2_counterexample :
    TopoModel.fix_json c2_claim_input = Except.ok []
    ∧ ((Except.ok ([] : List String) : Except TopoModel.TopoErr (List String))
        ≠ Except.ok ["toponym1", "toponym2", "top"]) :=
  ⟨rfl, fun h => List.noConfusion (Except.ok.inj h)⟩

/-- C2 amended: on inputs whose separators include the space of the source
pattern and whose truncated tail ends in at least one non-alphanumeric
character, the repair returns exactly the listed toponyms, deduplicated and
with empty strings dropped. -/
theorem c2_amended_repair :
    TopoModel.fix_json c2_test_input = Except.ok ["toponym1", "toponym2", "top"]
    ∧ TopoModel.fix_json c2_dup_input = Except.ok ["toponym1", "toponym2"]
    ∧ (["toponym1", "toponym2", "top"] : List String).Nodup
    ∧ (["toponym1", "toponym2"] : List String).Nodup :=
  ⟨rfl, rfl, by decide, by decide⟩

/-- C3 counterexample: with two consecutive absent fields followed by a
present one, the running index advances four places per insertion instead of
two, so longitude lands after RAG_estimated, not at the position matching
its rank in the expected ordering. -/
theorem c3_counterexample :
    RAGModel.add_missing_keys ["name", "Paris", "RAG_estimated", "true"]
        ["name", "latitude", "longitude", "RAG_estimated"]
      = ["name", "Paris", "latitude", "False", "RAG_estimated", "true", "longitude", "False"]
    ∧ RAGModel.add_missing_keys ["name", "Paris", "RAG_estimated", "true"]
        ["name", "latitude", "longitude", "RAG_estimated"]
      ≠ ["name", "Paris", "latitude", "False", "longitude", "False", "RAG_estimated", "true"] :=
  ⟨rfl, by decide⟩

/-- C3 amended: insertion never disturbs the relative order of the tokens
already present (the input token list is a sublist of the result), and on
the example of the claim, where a single field is absent, the synthetic pair
lands at the position matching its rank. -/
theorem c3_insertion_order :
    (∀ (ws ks : List String), List.Sublist ws (RAGModel.add_missing_keys ws ks))
    ∧ RAGModel.add_missing_keys ["name", "Paris", "longitude", "2.34", "RAG_estimated", "true"]
        ["name", "latitude", "longitude", "RAG_estimated"]
      = ["name", "Paris", "latitude", "False", "longitude", "2.34", "RAG_estimated", "true"] :=
  ⟨fun ws ks => sublist_add_missing_keysAux ks ws 0, rfl⟩

/-- C4 counterexample: a numeric field whose joined value fails to parse as
a literal does not become a per-field null; fix_json raises the ValueError
of literal_eval, and nothing on the path catches it. -/
theorem c4_counterexample :
    RAGModel.fix_json c4_bad_latitude = Except.error RAGModel.RagErr.valueError :=
  rfl

/-- C4 amended: when the three field extractions succeed but the latitude
value fails to parse as a literal, fix_json propagates the ValueError; the
engine sets no field to null and returns no per-field error list. -/
theorem c4_parse_failure_raises (s nm latS lonS : String)
    (h1 : RAGModel.get_word (RAGModel.fix_words s) (some ("name")) (some ("latitude"))
            = Except.ok nm)
    (h2 : RAGModel.get_word (RAGModel.fix_words s) (some ("latitude")) (some ("longitude"))
            = Except.ok latS)
    (h3 : RAGModel.get_word (RAGModel.fix_words s) (some ("longitude")) (some ("RAG_estimated"))
            = Except.ok lonS)
    (h4 : RAGModel.literal_eval latS = Except.error RAGModel.RagErr.valueError) :
    RAGModel.fix_json s = Except.error RAGModel.RagErr.valueError := by
  simp only [RAGModel.fix_json, h1, h2, h3, h4]

/-- C4 witness: the general theorem applied to a concrete truncated response
whose latitude value is the word unknown. -/
theorem c4_witness :
    RAGModel.fix_json c4_unknown_latitude = Except.error RAGModel.RagErr.valueError :=
  c4_parse_failure_raises c4_unknown_latitude ("Paris") ("unknown") ("2.34") rfl rfl rfl rfl

/-- C5: the validator flag is true exactly when some candidate is within
0.001 of the resolved pair on both axes; an empty candidate list yields
false, a candidate within 0.0001 on both axes yields true, and candidates
off by 0.01 yield false. -/
theorem c5_match_validator :
    (∀ (j : RAGModel.Coord) (ms : List RAGModel.MatchRec),
        RAGModel.validate_json j ms = true ↔
          ∃ m ∈ ms, |m.lat - j.latitude| ≤ 1 / 1000 ∧ |m.lon - j.longitude| ≤ 1 / 1000)
    ∧ RAGModel.validate_json ⟨0, 0⟩ [] = false
    ∧ RAGModel.validate_json ⟨0, 0⟩ [⟨40, 22⟩, ⟨1 / 10000, 1 / 10000⟩] = true
    ∧ RAGModel.validate_json ⟨0, 0⟩ [⟨40, 22⟩, ⟨1 / 100, 1 / 100⟩] = false := by
  have main : ∀ (j : RAGModel.Coord) (ms : List RAGModel.MatchRec),
      RAGModel.validate_json j ms = true ↔
        ∃ m ∈ ms, |m.lat - j.latitude| ≤ 1 / 1000 ∧ |m.lon - j.longitude| ≤ 1 / 1000 := by
    intro j ms
    unfold RAGModel.validate_json
    by_cases h : ms.length = 0
    · rw [if_pos h]
      rw [List.length_eq_zero] at h
      subst h
      simp
    · rw [if_neg h, foldl_or_eq_any]
      simp [List.any_eq_true]
  refine ⟨main, rfl, ?_, ?_⟩
  · refine (main ⟨0, 0⟩ _).2 ⟨⟨1 / 10000, 1 / 10000⟩, by simp, ?_, ?_⟩
    · show |(1 / 10000 : ℚ) - 0| ≤ 1 / 1000
      rw [sub_zero, abs_of_nonneg (by norm_num)]
      norm_num
    · show |(1 / 10000 : ℚ) - 0| ≤ 1 / 1000
      rw [sub_zero, abs_of_nonneg (by norm_num)]
      norm_num
  · rw [Bool.eq_false_iff]
    intro htrue
    rcases (main ⟨0, 0⟩ _).1 htrue with ⟨m, hm, h1, h2⟩
    simp only [List.mem_cons, List.not_mem_nil, or_false] at hm
    rcases hm with rfl | rfl
    · norm_num at h1
    · have hno : ¬ |(1 / 100 : ℚ) - 0| ≤ 1 / 1000 := by
        rw [sub_zero, abs_of_nonneg (by norm_num)]
        norm_num
      exact hno h1

/-- C6: the gazetteer client is not fail-soft.  Every geonames lookup with a
username raises TypeError, because query passes two positional arguments to
the one-parameter _geonames_query; the exception handler of _geonames_query
itself returns a dictionary, not an empty list; and on a non-success status
the nominatim path returns the parsed body (caching it under the literal key
query) instead of an empty list. -/
theorem c6_gazetteer_not_failsoft :
    Gazetteer.query c6_gGeo netParis ("Paris") none = Except.error Gazetteer.GazErr.typeError
    ∧ Gazetteer.geonames_query c6_gGeo netBadBody ("Paris")
      = Except.ok (Gazetteer.PyJson.gobj true [], c6_gGeo)
    ∧ Gazetteer.nominatim_query c1_g0 netStatus500 ("Paris") ("ua")
      = Except.ok (Gazetteer.PyJson.jlist [parisCand], c1_g1) :=
  ⟨rfl, rfl, rfl⟩

/-- C7: the toponym validator returns exactly the input elements that occur
as a literal substring of the text, in input order: the loop equals the
filter by the substring test, the substring test answers true exactly on
infixes of the text, and the Olympics example keeps the first three
toponyms. -/
theorem c7_validator_filters_substrings :
    (∀ (ts : List String) (text : String),
        TopoModel.validate_toponyms ts text = ts.filter (fun t => pyIn t text))
    ∧ (∀ (t text : String), pyIn t text = true ↔ t.toList <:+: text.toList)
    ∧ TopoModel.validate_toponyms ["London", "Rio de Janeiro", "Tokyo", "Paris"]
        ("London (2012), Rio de Janeiro (2016), Tokyo (2020)")
      = ["London", "Rio de Janeiro", "Tokyo"] :=
  ⟨validate_toponyms_eq_filter, pyIn_iff_infix, by rfl⟩

/-- C8 counterexample: with two extracted toponyms and an oracle stub whose
call fails on the first, geoparse returns the propagated failure, not a
two-element list with null coordinates for the failed toponym. -/
theorem c8_counterexample :
    GeoLlama.geoparse c8_get_toponyms c8_get_matches c8_get_location ("some text")
      = Except.error GeoLlama.GeoErr.oracleFailure
    ∧ ((Except.error GeoLlama.GeoErr.oracleFailure :
          Except GeoLlama.GeoErr (List GeoLlama.ResolvedLocation))
        ≠ Except.ok [{ name := "Paris", latitude := none, longitude := none,
                       RAG_estimated := false },
                     { name := "London", latitude := some 1, longitude := some 2,
                       RAG_estimated := false }]) :=
  ⟨rfl, fun h => Except.noConfusion h⟩

/-- C8 amended: an oracle-call failure for any toponym aborts the whole
pipeline; geoparse propagates an error and returns no location for any
toponym. -/
theorem c8_failure_aborts_pipeline {α : Type}
    (gt : String → Except GeoLlama.GeoErr (List String)) (gm : String → α)
    (gl : String → String → α → Except GeoLlama.GeoErr GeoLlama.ResolvedLocation)
    (text : String) (ts : List String) (t : String) (e : GeoLlama.GeoErr)
    (h1 : gt text = Except.ok ts) (h2 : t ∈ ts)
    (h3 : gl t text (gm t) = Except.error e) :
    ∃ e2, GeoLlama.geoparse gt gm gl text = Except.error e2 := by
  obtain ⟨e2, hl⟩ := geoparse_loop_error gm gl text t e h3 ts h2
  exact ⟨e2, by simp [GeoLlama.geoparse, h1, hl]⟩

/-- C8 witness: the general theorem applied to the concrete stubs with the
failing first toponym. -/
theorem c8_witness :
    ∃ e2, GeoLlama.geoparse c8_get_toponyms c8_get_matches c8_get_location ("some text")
      = Except.error e2 :=
  c8_failure_aborts_pipeline c8_get_toponyms c8_get_matches c8_get_location ("some text")
    ["Paris", "London"] ("Paris") GeoLlama.GeoErr.oracleFailure rfl (by decide) rfl

/-- C9 counterexample: a source that is not exactly a backend name but
lower-cases to one is dispatched to that backend with base_url unset; the
query raises AttributeError instead of returning None. -/
theorem c9_counterexample :
    Gazetteer.query c9_gCap netParis ("Paris") (some ("agent"))
      = Except.error Gazetteer.GazErr.attributeError :=
  rfl

/-- C9 amended: for every source whose lower-casing is neither nominatim nor
geonames (including the misspelt constructor default nominatm), every query
on a fresh instance returns the implicit Python None, issues no network
call, raises nothing, and leaves the state unchanged. -/
theorem c9_other_sources_return_none (src : String) (uname : Option String)
    (net : String → Gazetteer.NetOutcome) (q : String) (ua : Option String)
    (h1 : pyLower src ≠ "nominatim") (h2 : pyLower src ≠ "geonames") :
    Gazetteer.query (Gazetteer.init src uname) net q ua
      = Except.ok (Gazetteer.PyRet.pyNone, Gazetteer.init src uname, false) := by
  have hcache : pyGet (Gazetteer.init src uname).cache q = none := rfl
  have hsrc : (Gazetteer.init src uname).gazetteer_source = src := rfl
  unfold Gazetteer.query
  rw [hcache]
  unfold Gazetteer.queryBackend
  rw [hsrc, if_neg h1, if_neg h2]

/-- C9 witness: the amended theorem applied to the misspelt default source
nominatm. -/
theorem c9_witness :
    Gazetteer.query (Gazetteer.init ("nominatm") none) netParis ("Paris") (some ("agent"))
      = Except.ok (Gazetteer.PyRet.pyNone, Gazetteer.init ("nominatm") none, false) :=
  c9_other_sources_return_none ("nominatm") none netParis ("Paris") (some ("agent"))
    (by decide) (by decide)

/-- C10: every token the repair inserts is an expected key or the default
token False, whatever the field; concretely, a response missing its latitude
repairs to the boolean false for latitude (via literal_eval of the token
False), and a response missing its name repairs to the string False for
name. -/
theorem c10_missing_fields_default_False :
    (∀ (ws ks : List String) (w : String),
        w ∈ RAGModel.add_missing_keys ws ks → w ∈ ws ∨ w ∈ ks ∨ w = "False")
    ∧ RAGModel.fix_json c10_missing_latitude
      = Except.ok { name := "Paris", latitude := RAGModel.PyVal.pbool false,
                    longitude := RAGModel.PyVal.pnum (mkRat 234 100),
                    RAG_estimated := RAGModel.PyVal.pbool false }
    ∧ RAGModel.fix_json c10_missing_name
      = Except.ok { name := "False", latitude := RAGModel.PyVal.pnum (mkRat 4885 100),
                    longitude := RAGModel.PyVal.pnum (mkRat 234 100),
                    RAG_estimated := RAGModel.PyVal.pbool false } :=
  ⟨fun ws ks w h => mem_add_missing_keysAux ks ws 0 w h, rfl, rfl⟩

/-- C10 witness: the general part of the theorem applied to a concrete word
list and key list, with the membership hypothesis discharged by evaluation. -/
theorem c10_witness :
    ("latitude" ∈ (["name"] : List String))
    ∨ ("latitude" ∈ (["name", "latitude"] : List String))
    ∨ ("latitude" = "False") :=
  c10_missing_fields_default_False.1 ["name"] ["name", "latitude"] ("latitude") (by decide)
